import Mathlib

/-!
Verification of the resume-optimization route (`src/app/api/resume/optimize/route.ts`).

The route consists of a pure recursive helper `nullToUndefined` and an async
handler `POST`.  The handler is embedded as a pure function over an `Env`
record that packages the outcomes of its external collaborators (session
resolution, the configured API key, multipart form-data extraction, and the
two remote SDK calls `parseResume` / `createResume`).  Each collaborator that
the handler awaits may throw; a thrown exception is an `Exc` value routed to
the embedded `catch` block.  The handler returns its HTTP response together
with the trace of remote calls it issued, so that "no remote call is made"
claims are statable.
-/

namespace Horizon

/-- JSON-like values as manipulated by the route: JavaScript `null`,
`undefined`, booleans, numbers, strings, arrays, and string-keyed objects. -/
inductive JValue where
  | null : JValue
  | undef : JValue
  | bool : Bool → JValue
  | num : Int → JValue
  | str : String → JValue
  | arr : List JValue → JValue
  | obj : List (String × JValue) → JValue

/-- Embedding of `nullToUndefined` (route.ts lines 8-19): `null` becomes
`undefined`; non-objects (scalars, including `undefined`) are returned as-is;
arrays are mapped element-wise; objects are rebuilt key by key with converted
values.  (`List.attach` is only the termination device for the nested
recursion; `nullToUndefined_arr` / `nullToUndefined_obj` below recover the
plain `map` form of the source.) -/
def nullToUndefined : JValue → JValue
  | .null => .undef
  | .undef => .undef
  | .bool b => .bool b
  | .num n => .num n
  | .str s => .str s
  | .arr xs => .arr (xs.attach.map fun x => nullToUndefined x.1)
  | .obj kvs => .obj (kvs.attach.map fun kv => (kv.1.1, nullToUndefined kv.1.2))
decreasing_by
  · have h1 := List.sizeOf_lt_of_mem x.2
    simp only [JValue.arr.sizeOf_spec]
    omega
  · have h1 := List.sizeOf_lt_of_mem kv.2
    have h2 : sizeOf kv.1.2 < sizeOf kv.1 := by
      obtain ⟨⟨k, v⟩, hk⟩ := kv
      simp only [Prod.mk.sizeOf_spec]
      omega
    simp only [JValue.obj.sizeOf_spec]
    omega

/-- JavaScript truthiness test (`!x`) on the embedded values: `null`,
`undefined`, `false`, `0` and the empty string are falsy; arrays and objects
(even empty ones) are truthy. -/
def jsFalsy : JValue → Bool
  | .null => true
  | .undef => true
  | .bool b => !b
  | .num n => n == 0
  | .str s => s == ""
  | .arr _ => false
  | .obj _ => false

/-- The base64 alphabet, as used by `Buffer.toString("base64")`. -/
def base64Chars : List Char :=
  "ABCDEFGHIJKLMNOPQRSTUVWXYZabcdefghijklmnopqrstuvwxyz0123456789+/".toList

/-- The base64 digit for a 6-bit group. -/
def b64Char (n : Nat) : Char := base64Chars.getD n 'A'

/-- Embedding of `Buffer.from(fileBuffer).toString("base64")` (route.ts line
75): standard base64 with `=` padding over the file's bytes. -/
def base64Encode : List Nat → String
  | a :: b :: c :: rest =>
      String.mk [b64Char (a / 4), b64Char (a % 4 * 16 + b / 16),
        b64Char (b % 16 * 4 + c / 64), b64Char (c % 64)] ++ base64Encode rest
  | [a, b] =>
      String.mk [b64Char (a / 4), b64Char (a % 4 * 16 + b / 16),
        b64Char (b % 16 * 4), '=']
  | [a] => String.mk [b64Char (a / 4), b64Char (a % 4 * 16), '=', '=']
  | [] => ""

/-- The SDK's `UseResumeError`: a message and an optional HTTP status
(`error.status` may be `undefined`). -/
structure UseResumeError where
  message : String
  status : Option Nat
deriving Repr, DecidableEq

/-- An exception observable by the handler's `catch` block: either a
recognized `UseResumeError` or any other thrown value. -/
inductive Exc where
  | apiError : UseResumeError → Exc
  | other : Exc
deriving Repr, DecidableEq

/-- The uploaded `File`: its `name`, its `size` in bytes, and the byte
contents delivered by `arrayBuffer()`. -/
structure ResumeFile where
  name : String
  size : Nat
  bytes : List Nat
deriving Repr, DecidableEq

/-- An opaque authentication session (only its presence matters). -/
structure Session where
  userId : String
deriving Repr, DecidableEq

/-- Result of `client.parseResume`: a success flag and a `data` payload
(`JValue.undef` plays the role of an absent `data` field). -/
structure ParseResult where
  success : Bool
  data : JValue

/-- The `data` part of a `createResume` result: the generated file URL and
its expiration timestamp, each possibly absent. -/
structure CreateData where
  file_url : Option String
  file_url_expires_at : Option String
deriving Repr, DecidableEq

/-- The `meta` part of a `createResume` result: usage metering counters,
each possibly absent. -/
structure CreateMeta where
  credits_used : Option Nat
  credits_remaining : Option Nat
deriving Repr, DecidableEq

/-- Result of `client.createResume`: success flag, optional `data`, and
optional `meta`. -/
structure CreateResult where
  success : Bool
  data : Option CreateData
  meta : Option CreateMeta
deriving Repr, DecidableEq

/-- The style block sent to `createResume`. -/
structure Style where
  template : String
  template_color : String
  font : String
deriving Repr, DecidableEq

/-- The hard-coded style of route.ts lines 100-104. -/
def fixedStyle : Style :=
  { template := "horizon", template_color := "amber", font := "inter" }

/-- The environment of one request: outcomes of every external interaction
the handler awaits.  `getSession`, `formData` and the two SDK calls may
throw (`Except.error`); `apiKey` is the `USERESUME_API_KEY` environment
variable (`none` when unset). -/
structure Env where
  getSession : Except Exc (Option Session)
  apiKey : Option String
  formData : Except Exc (Option ResumeFile)
  parseResume : String → Except Exc ParseResult
  createResume : JValue → Style → Except Exc CreateResult

/-- `name.toLowerCase()` over the name's characters (ASCII case folding,
which is all `".pdf"` comparison needs). -/
def lowerChars (s : String) : List Char := s.toList.map Char.toLower

/-- `file.name.toLowerCase().endsWith(".pdf")` (route.ts line 55). -/
def pdfNamed (name : String) : Bool := List.isSuffixOf ".pdf".toList (lowerChars name)

/-- JavaScript falsiness of the `USERESUME_API_KEY` value: unset or empty. -/
def apiKeyMissing : Option String → Bool
  | none => true
  | some k => k == ""

/-- The body of a JSON response: either an error object
(`\x7b error: msg \x7d`) or the success payload of route.ts lines 118-124. -/
structure SuccessBody where
  download_url : Option String
  expires_at : Option String
  credits_used : Option Nat
  credits_remaining : Option Nat
deriving Repr, DecidableEq

/-- A JSON response body. -/
inductive Body where
  | error : String → Body
  | success : SuccessBody → Body
deriving Repr, DecidableEq

/-- An HTTP response: status code and JSON body. -/
structure Response where
  status : Nat
  body : Body
deriving Repr, DecidableEq

/-- `NextResponse.json(\x7b error \x7d, \x7b status \x7d)`. -/
def jsonError (msg : String) (status : Nat) : Response :=
  { status := status, body := .error msg }

/-- The remote SDK calls the handler can issue. -/
inductive RemoteCall where
  | parse : RemoteCall
  | create : RemoteCall
deriving Repr, DecidableEq

/-- `createResult.data?.file_url`. -/
def fileUrlOf (r : CreateResult) : Option String :=
  r.data.bind fun d => d.file_url

/-- JavaScript falsiness of an optional string (`undefined` or `""`). -/
def strFalsy : Option String → Bool
  | none => true
  | some s => s == ""

/-- `error.status || 500`: the carried status, except that an absent or
zero (falsy) status becomes 500. -/
def statusOr500 : Option Nat → Nat
  | none => 500
  | some s => if s = 0 then 500 else s

/-- Embedding of the `catch` block (route.ts lines 126-140): a
`UseResumeError` is surfaced with its message and `status || 500`; any other
exception yields the generic 500 response. -/
def catchBlock : Exc → Response
  | .apiError e => jsonError ("Resume API error: " ++ e.message) (statusOr500 e.status)
  | .other => jsonError "Failed to optimize resume. Please try again." 500

/-- Embedding of the `try` block of `POST` (route.ts lines 22-125), guard by
guard in source order; alongside the result (a response, or the exception
that escaped) it records which remote calls were issued. -/
def tryBlock (env : Env) : Except Exc Response × List RemoteCall :=
  match env.getSession with
  | .error e => (.error e, [])
  | .ok none => (.ok (jsonError "Unauthorized" 401), [])
  | .ok (some _) =>
    if apiKeyMissing env.apiKey then
      (.ok (jsonError "Resume service not configured" 500), [])
    else
      match env.formData with
      | .error e => (.error e, [])
      | .ok none => (.ok (jsonError "No file provided" 400), [])
      | .ok (some file) =>
        if !(pdfNamed file.name) then
          (.ok (jsonError "Only PDF files are supported" 400), [])
        else if file.size > 5 * 1024 * 1024 then
          (.ok (jsonError "File size exceeds 5MB limit" 400), [])
        else
          let base64File := base64Encode file.bytes
          match env.parseResume base64File with
          | .error e => (.error e, [.parse])
          | .ok parseResult =>
            if !parseResult.success || jsFalsy parseResult.data then
              (.ok (jsonError "Failed to parse resume. Please ensure the PDF is readable." 400),
                [.parse])
            else
              let resumeContent := nullToUndefined parseResult.data
              match env.createResume resumeContent fixedStyle with
              | .error e => (.error e, [.parse, .create])
              | .ok createResult =>
                if !createResult.success || strFalsy (fileUrlOf createResult) then
                  (.ok (jsonError "Failed to generate optimized resume" 500),
                    [.parse, .create])
                else
                  (.ok { status := 200, body := .success {
                      download_url := fileUrlOf createResult,
                      expires_at := createResult.data.bind fun d => d.file_url_expires_at,
                      credits_used := createResult.meta.bind fun m => m.credits_used,
                      credits_remaining := createResult.meta.bind fun m => m.credits_remaining } },
                    [.parse, .create])

/-- The whole `POST` handler: the `try` block with the `catch` block applied
to any escaped exception. -/
def POST (env : Env) : Response × List RemoteCall :=
  match tryBlock env with
  | (.ok r, calls) => (r, calls)
  | (.error e, calls) => (catchBlock e, calls)

/-! Concrete collaborators and environments used to exercise the handler on
closed inputs. -/

/-- A resolvable session. -/
def okSession : Except Exc (Option Session) := .ok (some { userId := "user-1" })

/-- A well-formed 10 KB PDF upload (bytes begin with "%PDF"). -/
def samplePdf : ResumeFile := { name := "resume.pdf", size := 10240, bytes := [37, 80, 68, 70] }

/-- An upload of exactly 5,242,880 bytes. -/
def fileAtLimit : ResumeFile := { name := "resume.pdf", size := 5242880, bytes := [37, 80, 68, 70] }

/-- An upload one byte over the limit. -/
def fileOversize : ResumeFile := { name := "resume.pdf", size := 5242881, bytes := [37, 80, 68, 70] }

/-- An upload with a non-PDF name. -/
def fileDocx : ResumeFile := { name := "resume.docx", size := 10240, bytes := [37, 80, 68, 70] }

/-- An upload whose name ends in ".pdf" in upper case. -/
def fileUpperPdf : ResumeFile := { name := "RESUME.PDF", size := 10240, bytes := [37, 80, 68, 70] }

/-- A parse call that succeeds with data containing an explicit null. -/
def parseOk : String → Except Exc ParseResult :=
  fun _ => .ok { success := true, data := .obj [("name", .str "A"), ("skills", .null)] }

/-- A parse call that reports failure. -/
def parseFail : String → Except Exc ParseResult :=
  fun _ => .ok { success := false, data := .undef }

/-- The data part of the successful create call. -/
def createOkData : CreateData :=
  { file_url := some "https://x/y.pdf", file_url_expires_at := some "2025-01-01T00:00:00Z" }

/-- The metering reported by the successful create call. -/
def createOkMeta : CreateMeta := { credits_used := some 1, credits_remaining := some 9 }

/-- A create call that succeeds with a populated file URL and metering. -/
def createOk : JValue → Style → Except Exc CreateResult :=
  fun _ _ => .ok { success := true, data := some createOkData, meta := some createOkMeta }

/-- A create call that reports failure. -/
def createFail : JValue → Style → Except Exc CreateResult :=
  fun _ _ => .ok { success := false, data := none, meta := none }

/-- The fully successful request environment of the end-to-end scenario. -/
def envOk : Env :=
  { getSession := okSession, apiKey := some "key", formData := .ok (some samplePdf),
    parseResume := parseOk, createResume := createOk }

/-- An unauthenticated request (no resolvable session, key also missing). -/
def envNoSession : Env :=
  { getSession := .ok none, apiKey := none, formData := .ok (some samplePdf),
    parseResume := parseOk, createResume := createOk }

/-- Authenticated request with the credential missing and an invalid file. -/
def envNoKey : Env :=
  { getSession := okSession, apiKey := none, formData := .ok (some fileDocx),
    parseResume := parseOk, createResume := createOk }

/-- Authenticated request whose file is exactly at the size limit. -/
def envAtLimit : Env :=
  { getSession := okSession, apiKey := some "key", formData := .ok (some fileAtLimit),
    parseResume := parseOk, createResume := createOk }

/-- Authenticated request whose file is one byte over the size limit. -/
def envOversize : Env :=
  { getSession := okSession, apiKey := some "key", formData := .ok (some fileOversize),
    parseResume := parseOk, createResume := createOk }

/-- Authenticated request with a ".docx" upload. -/
def envDocx : Env :=
  { getSession := okSession, apiKey := some "key", formData := .ok (some fileDocx),
    parseResume := parseOk, createResume := createOk }

/-- Authenticated request with an upper-case ".PDF" upload. -/
def envUpperPdf : Env :=
  { getSession := okSession, apiKey := some "key", formData := .ok (some fileUpperPdf),
    parseResume := parseOk, createResume := createOk }

/-- Authenticated request whose parse call reports failure. -/
def envParseFail : Env :=
  { getSession := okSession, apiKey := some "key", formData := .ok (some samplePdf),
    parseResume := parseFail, createResume := createOk }

/-- Authenticated request whose create call reports failure. -/
def envCreateFail : Env :=
  { getSession := okSession, apiKey := some "key", formData := .ok (some samplePdf),
    parseResume := parseOk, createResume := createFail }

/-- Authenticated request whose parse call throws a `UseResumeError` with
status 429 and message "rate limited". -/
def envRateLimited : Env :=
  { getSession := okSession, apiKey := some "key", formData := .ok (some samplePdf),
    parseResume := fun _ => .error (.apiError { message := "rate limited", status := some 429 }),
    createResume := createOk }

/-- A request whose session resolution throws a `UseResumeError` carrying
HTTP status 0. -/
def envStatusZero : Env :=
  { getSession := .error (.apiError { message := "boom", status := some 0 }),
    apiKey := none, formData := .ok none,
    parseResume := parseFail, createResume := createFail }

/-- A request whose multipart form-data extraction throws an ordinary
(non-`UseResumeError`) exception. -/
def envBadMultipart : Env :=
  { getSession := okSession, apiKey := some "key", formData := .error .other,
    parseResume := parseOk, createResume := createOk }

/-! Helper lemmas. -/

/-- Induction over `JValue` with element-wise hypotheses for arrays and
value-wise hypotheses for objects. -/
theorem JValue.inductionOn (P : JValue → Prop)
    (hnull : P .null) (hundef : P .undef) (hbool : ∀ b, P (.bool b))
    (hnum : ∀ n, P (.num n)) (hstr : ∀ s, P (.str s))
    (harr : ∀ xs, (∀ x ∈ xs, P x) → P (.arr xs))
    (hobj : ∀ kvs, (∀ kv ∈ kvs, P kv.2) → P (.obj kvs)) :
    ∀ v, P v
  | .null => hnull
  | .undef => hundef
  | .bool b => hbool b
  | .num n => hnum n
  | .str s => hstr s
  | .arr xs => harr xs fun x _ =>
      JValue.inductionOn P hnull hundef hbool hnum hstr harr hobj x
  | .obj kvs => hobj kvs fun kv _ =>
      JValue.inductionOn P hnull hundef hbool hnum hstr harr hobj kv.2
termination_by v => sizeOf v
decreasing_by
  all_goals rename_i hmem
  · have h1 := List.sizeOf_lt_of_mem hmem
    simp only [JValue.arr.sizeOf_spec]
    omega
  · have h1 := List.sizeOf_lt_of_mem hmem
    have h2 : sizeOf kv.2 < sizeOf kv := by
      obtain ⟨k, v⟩ := kv
      simp only [Prod.mk.sizeOf_spec]
      omega
    simp only [JValue.obj.sizeOf_spec]
    omega

/-- On arrays, `nullToUndefined` is exactly the element-wise map of the
source. -/
theorem nullToUndefined_arr (xs : List JValue) :
    nullToUndefined (.arr xs) = .arr (xs.map nullToUndefined) := by
  simp [nullToUndefined, List.attach_map_coe]

/-- On objects, `nullToUndefined` is exactly the value-wise map of the
source. -/
theorem nullToUndefined_obj (kvs : List (String × JValue)) :
    nullToUndefined (.obj kvs) = .obj (kvs.map fun kv => (kv.1, nullToUndefined kv.2)) := by
  simp only [nullToUndefined]
  rw [List.attach_map_coe (f := fun kv => (Prod.fst kv, nullToUndefined (Prod.snd kv)))]

/-- `nullToUndefined` is idempotent. -/
theorem nullToUndefined_idem (v : JValue) :
    nullToUndefined (nullToUndefined v) = nullToUndefined v := by
  induction v using JValue.inductionOn with
  | harr xs ih =>
      rw [nullToUndefined_arr, nullToUndefined_arr, List.map_map]
      exact congrArg JValue.arr (List.map_congr_left fun x hx => ih x hx)
  | hobj kvs ih =>
      rw [nullToUndefined_obj, nullToUndefined_obj, List.map_map]
      exact congrArg JValue.obj (List.map_congr_left fun kv hkv => by
        simp only [Function.comp]
        rw [ih kv hkv])
  | _ => simp [nullToUndefined]

/-! Claim theorems. -/

/-- C1: `nullToUndefined` is idempotent and structure-preserving: applying
it twice equals applying it once; arrays are mapped element-wise (hence keep
their length) and objects value-wise (hence keep their key list); `null`
becomes `undefined` (at any depth, since the recursion is element-wise and
value-wise); `undefined` and every other scalar are unchanged. -/
theorem nullToUndefined_normalization :
    (∀ v, nullToUndefined (nullToUndefined v) = nullToUndefined v) ∧
    (∀ xs, nullToUndefined (.arr xs) = .arr (xs.map nullToUndefined)) ∧
    (∀ kvs, nullToUndefined (.obj kvs) =
      .obj (kvs.map fun kv => (kv.1, nullToUndefined kv.2))) ∧
    (∀ xs, ∃ ys, nullToUndefined (JValue.arr xs) = .arr ys ∧ ys.length = xs.length) ∧
    (∀ kvs, ∃ kvs2, nullToUndefined (JValue.obj kvs) = .obj kvs2 ∧
      kvs2.map Prod.fst = kvs.map Prod.fst) ∧
    (nullToUndefined .null = .undef) ∧
    (nullToUndefined .undef = .undef) ∧
    (∀ b, nullToUndefined (.bool b) = .bool b) ∧
    (∀ n, nullToUndefined (.num n) = .num n) ∧
    (∀ s, nullToUndefined (.str s) = .str s) := by
  refine ⟨nullToUndefined_idem, nullToUndefined_arr, nullToUndefined_obj,
    ?_, ?_, ?_, ?_, ?_, ?_, ?_⟩
  · intro xs
    exact ⟨xs.map nullToUndefined, nullToUndefined_arr xs, by simp⟩
  · intro kvs
    exact ⟨kvs.map fun kv => (kv.1, nullToUndefined kv.2), nullToUndefined_obj kvs, by simp⟩
  · simp [nullToUndefined]
  · simp [nullToUndefined]
  · intro b
    simp [nullToUndefined]
  · intro n
    simp [nullToUndefined]
  · intro s
    simp [nullToUndefined]

/-- C6: a request whose session resolution yields no session is answered
with 401 Unauthorized and no remote call is issued. -/
theorem post_unauthorized (env : Env) (hs : env.getSession = .ok none) :
    POST env = ({ status := 401, body := .error "Unauthorized" }, []) := by
  simp [POST, tryBlock, hs, jsonError]

/-- C6 witness: the concrete unauthenticated request. -/
theorem post_unauthorized_witness :
    POST envNoSession = ({ status := 401, body := .error "Unauthorized" }, []) :=
  post_unauthorized envNoSession rfl

/-- C2: for an authenticated request with a configured key and a ".pdf"
upload, a file of exactly 5,242,880 bytes passes the size check and the
handler proceeds to the remote parse call, while a strictly larger file is
rejected with 400 and no remote call is issued. -/
theorem post_size_limit (env : Env) (sess : Session) (file : ResumeFile)
    (hs : env.getSession = .ok (some sess)) (hk : apiKeyMissing env.apiKey = false)
    (hf : env.formData = .ok (some file)) (hext : pdfNamed file.name = true) :
    (file.size = 5242880 → RemoteCall.parse ∈ (POST env).2) ∧
    (file.size > 5242880 →
      POST env = ({ status := 400, body := .error "File size exceeds 5MB limit" }, [])) := by
  constructor
  · intro hsz
    have hsz2 : ¬ (file.size > 5 * 1024 * 1024) := by omega
    rcases hp : env.parseResume (base64Encode file.bytes) with e | pr
    · simp [POST, tryBlock, hs, hk, hf, hext, hsz2, hp]
    · by_cases hpf : (!pr.success || jsFalsy pr.data) = true
      · simp [POST, tryBlock, hs, hk, hf, hext, hsz2, hp, hpf]
      · rcases hc : env.createResume (nullToUndefined pr.data) fixedStyle with e | cr
        · simp [POST, tryBlock, hs, hk, hf, hext, hsz2, hp, hpf, hc]
        · by_cases hcf : (!cr.success || strFalsy (fileUrlOf cr)) = true
          · simp [POST, tryBlock, hs, hk, hf, hext, hsz2, hp, hpf, hc, hcf]
          · simp [POST, tryBlock, hs, hk, hf, hext, hsz2, hp, hpf, hc, hcf]
  · intro hsz
    have hsz2 : file.size > 5 * 1024 * 1024 := by omega
    simp [POST, tryBlock, hs, hk, hf, hext, hsz2, jsonError]

/-- C2 witness: the file exactly at the limit reaches the parse call; the
file one byte over is rejected with the size error and no remote call. -/
theorem post_size_limit_witness :
    RemoteCall.parse ∈ (POST envAtLimit).2 ∧
    POST envOversize = ({ status := 400, body := .error "File size exceeds 5MB limit" }, []) :=
  ⟨(post_size_limit envAtLimit { userId := "user-1" } fileAtLimit rfl rfl rfl (by decide)).1 rfl,
   (post_size_limit envOversize { userId := "user-1" } fileOversize rfl rfl rfl (by decide)).2
     (by decide)⟩

/-- C3: when the parse call returns success false or falsy data, the
handler answers 400 with the parse-failure message and the create call is
never invoked. -/
theorem post_parse_failure_short_circuit (env : Env) (sess : Session) (file : ResumeFile)
    (pr : ParseResult)
    (hs : env.getSession = .ok (some sess)) (hk : apiKeyMissing env.apiKey = false)
    (hf : env.formData = .ok (some file)) (hext : pdfNamed file.name = true)
    (hsz : file.size ≤ 5 * 1024 * 1024)
    (hp : env.parseResume (base64Encode file.bytes) = .ok pr)
    (hfail : pr.success = false ∨ jsFalsy pr.data = true) :
    POST env =
      ({ status := 400,
         body := .error "Failed to parse resume. Please ensure the PDF is readable." },
        [.parse]) ∧
    RemoteCall.create ∉ (POST env).2 := by
  have hsz2 : ¬ (file.size > 5 * 1024 * 1024) := by omega
  have hpf : (!pr.success || jsFalsy pr.data) = true := by
    rcases hfail with h | h <;> simp [h]
  have hmain : POST env =
      ({ status := 400,
         body := .error "Failed to parse resume. Please ensure the PDF is readable." },
        [.parse]) := by
    simp [POST, tryBlock, hs, hk, hf, hext, hsz2, hp, hpf, jsonError]
  refine ⟨hmain, ?_⟩
  rw [hmain]
  simp

/-- C3 witness: the concrete request whose parse call reports failure. -/
theorem post_parse_failure_witness :
    POST envParseFail =
      ({ status := 400,
         body := .error "Failed to parse resume. Please ensure the PDF is readable." },
        [.parse]) ∧
    RemoteCall.create ∉ (POST envParseFail).2 :=
  post_parse_failure_short_circuit envParseFail { userId := "user-1" } samplePdf
    { success := false, data := .undef } rfl rfl rfl (by decide) (by decide) rfl
    (Or.inl rfl)

/-- C5: when every guard passes, the parse call succeeds with truthy data,
and the create call succeeds with a populated file URL, the handler answers
200 with the success body: the download URL and expiration from the create
result's data, and the credits taken from its meta when present (undefined
otherwise). -/
theorem post_success_response (env : Env) (sess : Session) (file : ResumeFile)
    (pr : ParseResult) (cr : CreateResult) (url : String)
    (hs : env.getSession = .ok (some sess)) (hk : apiKeyMissing env.apiKey = false)
    (hf : env.formData = .ok (some file)) (hext : pdfNamed file.name = true)
    (hsz : file.size ≤ 5 * 1024 * 1024)
    (hp : env.parseResume (base64Encode file.bytes) = .ok pr)
    (hps : pr.success = true) (hpd : jsFalsy pr.data = false)
    (hc : env.createResume (nullToUndefined pr.data) fixedStyle = .ok cr)
    (hcs : cr.success = true) (hurl : fileUrlOf cr = some url) (hne : url ≠ "") :
    POST env =
      ({ status := 200, body := .success {
          download_url := some url,
          expires_at := cr.data.bind fun d => d.file_url_expires_at,
          credits_used := cr.meta.bind fun m => m.credits_used,
          credits_remaining := cr.meta.bind fun m => m.credits_remaining } },
        [.parse, .create]) := by
  have hsz2 : ¬ (file.size > 5 * 1024 * 1024) := by omega
  have hpf : (!pr.success || jsFalsy pr.data) = false := by simp [hps, hpd]
  have hcf : (!cr.success || strFalsy (fileUrlOf cr)) = false := by
    simp [hcs, hurl, strFalsy, hne]
  have hsf : strFalsy (some url) = false := by simp [strFalsy, hne]
  simp [POST, tryBlock, hs, hk, hf, hext, hsz2, hp, hpf, hc, hcf, hurl, hcs, hsf]

/-- C5 witness: the end-to-end success scenario of the spec. -/
theorem post_success_response_witness :
    POST envOk =
      ({ status := 200, body := .success {
          download_url := some "https://x/y.pdf",
          expires_at := some "2025-01-01T00:00:00Z",
          credits_used := some 1, credits_remaining := some 9 } },
        [.parse, .create]) := by
  have h := post_success_response envOk { userId := "user-1" } samplePdf
    { success := true, data := .obj [("name", .str "A"), ("skills", .null)] }
    { success := true, data := some createOkData, meta := some createOkMeta }
    "https://x/y.pdf" rfl rfl rfl (by decide) (by decide) rfl rfl rfl rfl rfl
    (by decide)
  simpa [createOkData, createOkMeta] using h

/-- C7: with a session, a configured key and a file present, a file whose
name does not end in ".pdf" case-insensitively is rejected with 400 and no
remote call, while any file whose lower-cased name ends in ".pdf" passes
the extension guard (the try block never produces that rejection). -/
theorem post_pdf_extension_guard (env : Env) (sess : Session) (file : ResumeFile)
    (hs : env.getSession = .ok (some sess)) (hk : apiKeyMissing env.apiKey = false)
    (hf : env.formData = .ok (some file)) :
    (pdfNamed file.name = false →
      POST env = ({ status := 400, body := .error "Only PDF files are supported" }, [])) ∧
    (pdfNamed file.name = true →
      (tryBlock env).1 ≠ .ok { status := 400, body := .error "Only PDF files are supported" }) := by
  constructor
  · intro hext
    simp [POST, tryBlock, hs, hk, hf, hext, jsonError]
  · intro hext
    by_cases hsz : file.size > 5 * 1024 * 1024
    · simp [tryBlock, hs, hk, hf, hext, hsz, jsonError]
    · rcases hp : env.parseResume (base64Encode file.bytes) with e | pr
      · simp [tryBlock, hs, hk, hf, hext, hsz, hp]
      · by_cases hpf : (!pr.success || jsFalsy pr.data) = true
        · simp [tryBlock, hs, hk, hf, hext, hsz, hp, hpf, jsonError]
        · rcases hc : env.createResume (nullToUndefined pr.data) fixedStyle with e | cr
          · simp [tryBlock, hs, hk, hf, hext, hsz, hp, hpf, hc]
          · by_cases hcf : (!cr.success || strFalsy (fileUrlOf cr)) = true
            · simp [tryBlock, hs, hk, hf, hext, hsz, hp, hpf, hc, hcf, jsonError]
            · simp [tryBlock, hs, hk, hf, hext, hsz, hp, hpf, hc, hcf, jsonError]

/-- C7 witness: "resume.docx" is rejected with the extension error and no
remote call; the upper-case "RESUME.PDF" passes the extension guard. -/
theorem post_pdf_extension_guard_witness :
    POST envDocx = ({ status := 400, body := .error "Only PDF files are supported" }, []) ∧
    (tryBlock envUpperPdf).1 ≠
      .ok { status := 400, body := .error "Only PDF files are supported" } :=
  ⟨(post_pdf_extension_guard envDocx { userId := "user-1" } fileDocx rfl rfl rfl).1 (by decide),
   (post_pdf_extension_guard envUpperPdf { userId := "user-1" } fileUpperPdf rfl rfl rfl).2
     (by decide)⟩

/-- C8: when the create call returns success false, or success without a
populated file URL, the handler answers 500 with exactly the generic
render-failure body. -/
theorem post_render_failure_generic (env : Env) (sess : Session) (file : ResumeFile)
    (pr : ParseResult) (cr : CreateResult)
    (hs : env.getSession = .ok (some sess)) (hk : apiKeyMissing env.apiKey = false)
    (hf : env.formData = .ok (some file)) (hext : pdfNamed file.name = true)
    (hsz : file.size ≤ 5 * 1024 * 1024)
    (hp : env.parseResume (base64Encode file.bytes) = .ok pr)
    (hps : pr.success = true) (hpd : jsFalsy pr.data = false)
    (hc : env.createResume (nullToUndefined pr.data) fixedStyle = .ok cr)
    (hfail : cr.success = false ∨ strFalsy (fileUrlOf cr) = true) :
    POST env =
      ({ status := 500, body := .error "Failed to generate optimized resume" },
        [.parse, .create]) := by
  have hsz2 : ¬ (file.size > 5 * 1024 * 1024) := by omega
  have hpf : (!pr.success || jsFalsy pr.data) = false := by simp [hps, hpd]
  have hcf : (!cr.success || strFalsy (fileUrlOf cr)) = true := by
    rcases hfail with h | h <;> simp [h]
  simp [POST, tryBlock, hs, hk, hf, hext, hsz2, hp, hpf, hc, hcf, jsonError]

/-- C8 witness: the concrete request whose create call reports failure. -/
theorem post_render_failure_witness :
    POST envCreateFail =
      ({ status := 500, body := .error "Failed to generate optimized resume" },
        [.parse, .create]) :=
  post_render_failure_generic envCreateFail { userId := "user-1" } samplePdf
    { success := true, data := .obj [("name", .str "A"), ("skills", .null)] }
    { success := false, data := none, meta := none }
    rfl rfl rfl (by decide) (by decide) rfl rfl (by decide) rfl (Or.inl rfl)

/-- C9: the guards run in source order (session, credential, file presence,
extension, size), so the earliest failing guard picks the response: with no
session the answer is 401 even when the credential is also missing; with a
session but no credential the answer is the 500 configuration error
whatever the form data holds; and a wrongly named file is reported as the
extension error even when it is also oversize. -/
theorem post_guard_precedence (env : Env) :
    (env.getSession = .ok none → apiKeyMissing env.apiKey = true →
      POST env = ({ status := 401, body := .error "Unauthorized" }, [])) ∧
    (∀ sess, env.getSession = .ok (some sess) → apiKeyMissing env.apiKey = true →
      POST env = ({ status := 500, body := .error "Resume service not configured" }, [])) ∧
    (∀ sess file, env.getSession = .ok (some sess) → apiKeyMissing env.apiKey = false →
      env.formData = .ok (some file) → pdfNamed file.name = false →
      file.size > 5 * 1024 * 1024 →
      POST env = ({ status := 400, body := .error "Only PDF files are supported" }, [])) := by
  refine ⟨?_, ?_, ?_⟩
  · intro hs _
    simp [POST, tryBlock, hs, jsonError]
  · intro sess hs hk
    simp [POST, tryBlock, hs, hk, jsonError]
  · intro sess file hs hk hf hext _
    simp [POST, tryBlock, hs, hk, hf, hext, jsonError]

/-- C9 witness: no session with no key yields 401; session with no key and
a ".docx" file yields the 500 configuration error; an oversize ".docx"
file with everything configured yields the extension error. -/
theorem post_guard_precedence_witness :
    POST envNoSession = ({ status := 401, body := .error "Unauthorized" }, []) ∧
    POST envNoKey = ({ status := 500, body := .error "Resume service not configured" }, []) := by
  constructor
  · exact (post_guard_precedence envNoSession).1 rfl rfl
  · exact (post_guard_precedence envNoKey).2.1 { userId := "user-1" } rfl rfl

/-- C10: an exception thrown before the remote calls that is not a
`UseResumeError` — by session resolution or by form-data extraction — is
answered with the generic 500 body, not a 400-level input error, and no
remote call is issued. -/
theorem post_pre_remote_exception_500 (env : Env) :
    (env.getSession = .error .other →
      POST env =
        ({ status := 500, body := .error "Failed to optimize resume. Please try again." }, [])) ∧
    (∀ sess, env.getSession = .ok (some sess) → apiKeyMissing env.apiKey = false →
      env.formData = .error .other →
      POST env =
        ({ status := 500, body := .error "Failed to optimize resume. Please try again." }, [])) := by
  constructor
  · intro hs
    simp [POST, tryBlock, hs, catchBlock, jsonError]
  · intro sess hs hk hf
    simp [POST, tryBlock, hs, hk, hf, catchBlock, jsonError]

/-- C10 witness: the concrete request whose multipart extraction throws an
ordinary exception. -/
theorem post_pre_remote_exception_witness :
    POST envBadMultipart =
      ({ status := 500, body := .error "Failed to optimize resume. Please try again." }, []) :=
  (post_pre_remote_exception_500 envBadMultipart).2 { userId := "user-1" } rfl rfl rfl

/-- C4 counterexample: a `UseResumeError` carrying HTTP status 0 is
surfaced with status 500, not with its carried status, because the source
computes `error.status || 500` and 0 is falsy. -/
theorem post_status_zero_counterexample :
    (POST envStatusZero).1.status = 500 ∧ (POST envStatusZero).1.status ≠ 0 := by
  constructor <;> decide

/-- C4 (amended): an exception caught by the handler that is a
`UseResumeError` is answered with its carried status — or 500 when the
status is absent or 0, both falsy in the source's `error.status || 500` —
and the body `Resume API error: <message>`; any other exception is answered
with the generic 500 body.  Exceptions thrown by session resolution
propagate with no remote call recorded; exceptions thrown by the parse call
propagate with the parse call recorded. -/
theorem post_exception_mapping :
    (∀ m k, k ≠ 0 → catchBlock (.apiError { message := m, status := some k }) =
      { status := k, body := .error ("Resume API error: " ++ m) }) ∧
    (∀ m, catchBlock (.apiError { message := m, status := none }) =
      { status := 500, body := .error ("Resume API error: " ++ m) }) ∧
    (∀ m, catchBlock (.apiError { message := m, status := some 0 }) =
      { status := 500, body := .error ("Resume API error: " ++ m) }) ∧
    (catchBlock .other =
      { status := 500, body := .error "Failed to optimize resume. Please try again." }) ∧
    (∀ env : Env, ∀ e, env.getSession = .error e → POST env = (catchBlock e, [])) ∧
    (∀ env : Env, ∀ sess file e, env.getSession = .ok (some sess) →
      apiKeyMissing env.apiKey = false → env.formData = .ok (some file) →
      pdfNamed file.name = true → file.size ≤ 5 * 1024 * 1024 →
      env.parseResume (base64Encode file.bytes) = .error e →
      POST env = (catchBlock e, [.parse])) := by
  refine ⟨?_, ?_, ?_, ?_, ?_, ?_⟩
  · intro m k hk
    simp [catchBlock, statusOr500, jsonError, hk]
  · intro m
    simp [catchBlock, statusOr500, jsonError]
  · intro m
    simp [catchBlock, statusOr500, jsonError]
  · simp [catchBlock, jsonError]
  · intro env e hs
    simp [POST, tryBlock, hs]
  · intro env sess file e hs hk hf hext hsz hp
    have hsz2 : ¬ (file.size > 5 * 1024 * 1024) := by omega
    simp [POST, tryBlock, hs, hk, hf, hext, hsz2, hp]

/-- C4 witness: the spec's scenario — the parse call throws a
`UseResumeError` with status 429 and message "rate limited", and the
response is 429 with body "Resume API error: rate limited". -/
theorem post_exception_mapping_witness :
    POST envRateLimited =
      ({ status := 429, body := .error "Resume API error: rate limited" }, [.parse]) := by
  have h := post_exception_mapping.2.2.2.2.2 envRateLimited { userId := "user-1" } samplePdf
    (.apiError { message := "rate limited", status := some 429 }) rfl rfl rfl (by decide)
    (by decide) rfl
  have h2 := post_exception_mapping.1 "rate limited" 429 (by decide)
  rw [h, h2]
  decide

end Horizon
